import Mathlib

/-!
Shallow embedding of the ESP32 peripheral-manager facades
(GpioManager, WiFiManager, ADCManager, MqttClient) from the
`esp32_cpp_library` repository, together with proofs of the
specification claims about them.

Hardware-abstraction-layer (ESP-IDF) calls are modelled by explicit
hardware-state records passed to each operation: the outcome of a
fallible SDK call (e.g. `gpio_config`, `esp_mqtt_client_init`) is a
field of the hardware record, and hardware side effects that the
manager state never observes (logging, `esp_wifi_set_config`,
`esp_netif_set_hostname`) are elided with a comment at the
corresponding place.
-/

namespace ESP32_GPIO

/-- GPIO pin direction options (`PinMode` in GpioManager.hpp). -/
inductive PinMode
  | DISABLED
  | INPUT
  | OUTPUT
  | INPUT_PULLUP
  | INPUT_PULLDOWN
deriving DecidableEq, Repr

/-- GPIO interrupt trigger types (`InterruptTrigger` in GpioManager.hpp). -/
inductive InterruptTrigger
  | NONE
  | RISING
  | FALLING
  | BOTH
deriving DecidableEq, Repr

/-- GPIO drive strength levels (`DriveStrength` in GpioManager.hpp);
`D0`–`D3` stand for the source's `_0`–`_3`. -/
inductive DriveStrength
  | DEFAULT
  | D0
  | D1
  | D2
  | D3
deriving DecidableEq, Repr

/-- The `gpio_mode_t` values the cpp file can place into `io_conf.mode`:
the cast of a `PinMode`, or `GPIO_MODE_INPUT_OUTPUT_OD` when
`open_drain` is set. -/
inductive GpioModeT
  | ofPinMode (m : PinMode)
  | INPUT_OUTPUT_OD
deriving DecidableEq, Repr

/-- The `gpio_config_t` request that `GpioManager::configurePin` builds
and hands to `gpio_config`. -/
structure GpioConfigT where
  pin_bit_mask : Nat
  mode : GpioModeT
  pull_up_en : Bool
  pull_down_en : Bool
  intr_type : InterruptTrigger
deriving DecidableEq, Repr

/-- A registered GPIO interrupt callback (`GpioCallback`), modelled as an
opaque identifier; invoking it is modelled by recording the identifier
together with its `(pin, level)` arguments. -/
abbrev GpioCallback := Nat

/-- State of the GPIO hardware abstraction layer as seen by GpioManager:
current pin levels, whether `gpio_config` accepts a given request, and
whether `gpio_install_isr_service` succeeds. -/
structure GpioHw where
  levels : Nat → Bool
  configOk : GpioConfigT → Bool
  isrServiceOk : Bool

/-- Model of `gpio_get_level`: returns 0 or 1. -/
def gpio_get_level (hw : GpioHw) (pin : Nat) : Int :=
  if hw.levels pin then 1 else 0

/-- Model of `gpio_set_level`: latches a nonzero written value as level 1. -/
def gpio_set_level (hw : GpioHw) (pin : Nat) (level : Nat) : GpioHw :=
  { hw with levels := fun q => if q = pin then level ≠ 0 else hw.levels q }

/-- C logical negation `!lvl` applied to an `int` level, as in
`setLevel(pin, !lvl)` inside `GpioManager::toggle`. -/
def cNot (lvl : Int) : Nat :=
  if lvl = 0 then 1 else 0

/-- Model of `GpioManager` state: the per-pin callback table `_configs` (only
field: `cb`) and the `_initialized` flag. -/
structure GpioManager where
  configs : Nat → Option GpioCallback
  initialized : Bool

/-- The freshly constructed singleton: `_initialized(false)` and the
callback table zeroed by `memset`. -/
def GpioManager.initial : GpioManager :=
  { configs := fun _ => none, initialized := false }

/-- Model of `GpioManager::init`: installs the ISR service once; returns the
(possibly updated) `_initialized` flag. -/
def GpioManager.init (hw : GpioHw) (m : GpioManager) : GpioManager × Bool :=
  if m.initialized then (m, true)
  else if hw.isrServiceOk then ({ m with initialized := true }, true)
  else (m, false)

/-- The `gpio_config_t` built by `GpioManager::configurePin` from its
arguments (lines 42–48 of the cpp file). -/
def buildGpioConfig (pin : Nat) (mode : PinMode) (pull_up pull_down : Bool)
    (intr : InterruptTrigger) (open_drain : Bool) : GpioConfigT :=
  { pin_bit_mask := 2 ^ pin
    mode := if open_drain then GpioModeT.INPUT_OUTPUT_OD else GpioModeT.ofPinMode mode
    pull_up_en := pull_up
    pull_down_en := pull_down
    intr_type := intr }

/-- Model of `GpioManager::configurePin`: auto-initializes the ISR runtime,
builds the configuration request, returns `false` if `gpio_config`
rejects it, sets drive capability (hardware effect, elided), and
registers the callback in `_configs[pin]` only when
`intr != NONE && callback`. -/
def GpioManager.configurePin (hw : GpioHw) (m : GpioManager) (pin : Nat)
    (mode : PinMode) (pull_up pull_down : Bool) (intr : InterruptTrigger)
    (callback : Option GpioCallback) (open_drain : Bool)
    (_drive : DriveStrength) : GpioManager × Bool :=
  let m1 := if m.initialized then m else (GpioManager.init hw m).1
  let io_conf := buildGpioConfig pin mode pull_up pull_down intr open_drain
  if hw.configOk io_conf = false then (m1, false)
  else
    -- gpio_set_drive_capability: hardware effect, elided
    if intr ≠ InterruptTrigger.NONE ∧ callback.isSome then
      ({ m1 with configs := fun q => if q = pin then callback else m1.configs q },
       true)
    else (m1, true)

/-- Model of `GpioManager::setLevel`: direct forwarder to `gpio_set_level`. -/
def GpioManager.setLevel (hw : GpioHw) (pin : Nat) (level : Nat) : GpioHw :=
  gpio_set_level hw pin level

/-- Model of `GpioManager::getLevel`: direct forwarder to `gpio_get_level`. -/
def GpioManager.getLevel (hw : GpioHw) (pin : Nat) : Int :=
  gpio_get_level hw pin

/-- Model of `GpioManager::toggle`: reads the level, writes its C-style logical
complement. -/
def GpioManager.toggle (hw : GpioHw) (pin : Nat) : GpioHw :=
  let lvl := GpioManager.getLevel hw pin
  GpioManager.setLevel hw pin (cNot lvl)

/-- Model of `GpioManager::isrHandler`: recovers the pin from the ISR argument,
reads the level, and invokes the registered callback if one exists;
the return value records the invocation `(callback, pin, level)`
performed, `none` when no callback is registered. -/
def GpioManager.isrHandler (hw : GpioHw) (m : GpioManager) (pin : Nat) :
    Option (GpioCallback × Nat × Int) :=
  let level := gpio_get_level hw pin
  match m.configs pin with
  | some cb => some (cb, pin, level)
  | none => none

end ESP32_GPIO

namespace ESP32_WIFI

/-- WiFi connection modes (`WiFiMode` in WiFiManager.hpp). -/
inductive WiFiMode
  | STATION
  | ACCESS_POINT
  | BOTH
deriving DecidableEq, Repr

/-- WiFi connection status (`WiFiStatus` in WiFiManager.hpp). -/
inductive WiFiStatus
  | DISCONNECTED
  | CONNECTING
  | CONNECTED
  | FAILED
deriving DecidableEq, Repr

/-- The WiFi event identifiers that `WiFiManager::wifiEventHandler`
branches on (WIFI_EVENT and IP_EVENT cases). -/
inductive WifiEventId
  | STA_START
  | STA_DISCONNECTED
  | AP_STACONNECTED
  | AP_STADISCONNECTED
  | STA_GOT_IP
deriving DecidableEq, Repr

/-- The FreeRTOS event-group bits of `s_wifi_event_group`:
`WIFI_CONNECTED_BIT` and `WIFI_FAIL_BIT`. -/
structure EventBits where
  connected : Bool
  fail : Bool
deriving DecidableEq, Repr

/-- Fallibility flags of the networking hardware layer:
whether `WiFiManager::init`'s SDK calls succeed (event-group and netif
creation) and whether `esp_wifi_stop` succeeds. -/
structure WiFiHw where
  initOk : Bool
  stopOk : Bool
deriving DecidableEq, Repr

/-- Model of `WiFiManager` state: mode, status, station and AP credentials, the
registered observer (opaque identifier), the `_initialized` flag, and
the event-group bits (part of the translation unit's static state,
read by `waitForConnection` and written by the event handler). -/
structure WiFiManager where
  mode : WiFiMode
  status : WiFiStatus
  stationSSID : String
  stationPassword : String
  apSSID : String
  apPassword : String
  eventCallback : Option Nat
  initialized : Bool
  bits : EventBits
deriving DecidableEq, Repr

/-- The freshly constructed singleton (`WiFiManager::WiFiManager`):
mode STATION, status DISCONNECTED, empty credential strings, no
callback, not initialized, event bits clear. -/
def WiFiManager.initial : WiFiManager :=
  { mode := WiFiMode.STATION
    status := WiFiStatus.DISCONNECTED
    stationSSID := ""
    stationPassword := ""
    apSSID := ""
    apPassword := ""
    eventCallback := none
    initialized := false
    bits := { connected := false, fail := false } }

/-- Model of `WiFiManager::init`: idempotent; on first call runs the SDK
bring-up sequence, whose failure points (event-group / netif creation)
are collapsed into `hw.initOk`. -/
def WiFiManager.init (hw : WiFiHw) (m : WiFiManager) : WiFiManager × Bool :=
  if m.initialized then (m, true)
  else if hw.initOk then ({ m with initialized := true }, true)
  else (m, false)

/-- Model of `WiFiManager::configureStation`: auto-init (failure returns false
before any field is stored), stores station credentials, sets the
hostname (hardware effect, elided), then updates the mode: BOTH when
the current mode is ACCESS_POINT, otherwise STATION. -/
def WiFiManager.configureStation (hw : WiFiHw) (m : WiFiManager)
    (ssid password _hostname : String) : WiFiManager × Bool :=
  let step := if m.initialized then (m, true) else WiFiManager.init hw m
  if step.2 = false then (step.1, false)
  else
    let m2 := { step.1 with stationSSID := ssid, stationPassword := password }
    -- esp_netif_set_hostname when hostname nonempty: hardware effect, elided
    let m3 := if m2.mode = WiFiMode.ACCESS_POINT then { m2 with mode := WiFiMode.BOTH }
              else { m2 with mode := WiFiMode.STATION }
    (m3, true)

/-- Model of `WiFiManager::configureAP`: auto-init, stores AP credentials, then
updates the mode: BOTH when the current mode is STATION, otherwise
ACCESS_POINT; finally builds the `wifi_config_t` (open auth on empty
password) and pushes it with `esp_wifi_set_config` (hardware effect,
elided — `ESP_ERROR_CHECK` aborts rather than returning on failure). -/
def WiFiManager.configureAP (hw : WiFiHw) (m : WiFiManager)
    (ssid password : String) (_channel _maxConnections : Nat) :
    WiFiManager × Bool :=
  let step := if m.initialized then (m, true) else WiFiManager.init hw m
  if step.2 = false then (step.1, false)
  else
    let m2 := { step.1 with apSSID := ssid, apPassword := password }
    let m3 := if m2.mode = WiFiMode.STATION then { m2 with mode := WiFiMode.BOTH }
              else { m2 with mode := WiFiMode.ACCESS_POINT }
    (m3, true)

/-- Model of `WiFiManager::start`: auto-init, applies mode and station
credentials to the hardware (elided), starts WiFi, and when the mode
includes the station role initiates a connection and sets status to
CONNECTING. -/
def WiFiManager.start (hw : WiFiHw) (m : WiFiManager) : WiFiManager × Bool :=
  let step := if m.initialized then (m, true) else WiFiManager.init hw m
  if step.2 = false then (step.1, false)
  else
    let m1 := step.1
    -- esp_wifi_set_mode / esp_wifi_set_config / esp_wifi_start: elided
    let m2 := if m1.mode = WiFiMode.STATION ∨ m1.mode = WiFiMode.BOTH then
                { m1 with status := WiFiStatus.CONNECTING }
              else m1
    (m2, true)

/-- Model of `WiFiManager::stop`: no-op success when never initialized;
otherwise fails (state unchanged) when `esp_wifi_stop` fails, else sets
status to DISCONNECTED. -/
def WiFiManager.stop (hw : WiFiHw) (m : WiFiManager) : WiFiManager × Bool :=
  if m.initialized = false then (m, true)
  else if hw.stopOk = false then (m, false)
  else ({ m with status := WiFiStatus.DISCONNECTED }, true)

/-- Model of `WiFiManager::setEventCallback`: replaces the observer. -/
def WiFiManager.setEventCallback (m : WiFiManager) (cb : Option Nat) :
    WiFiManager :=
  { m with eventCallback := cb }

/-- Model of `WiFiManager::waitForConnection`: returns immediately with failure
unless the mode includes the station role; otherwise blocks on the
event-group bits (their value when the wait completes is the `bits`
argument) and succeeds only on the connected bit. The second component
records whether `xEventGroupWaitBits` was invoked at all. -/
def WiFiManager.waitForConnection (m : WiFiManager) (_timeoutMs : Nat)
    (bits : EventBits) : Bool × Bool :=
  if m.mode ≠ WiFiMode.STATION ∧ m.mode ≠ WiFiMode.BOTH then (false, false)
  else if bits.connected then (true, true)
  else if bits.fail then (false, true)
  else (false, true)

/-- Model of `WiFiManager::wifiEventHandler`: the event trampoline. Returns the
updated manager state and the list of observer notifications performed
(each recorded as the `WiFiStatus` argument passed to the callback). -/
def WiFiManager.wifiEventHandler (m : WiFiManager) (e : WifiEventId) :
    WiFiManager × List WiFiStatus :=
  match e with
  | WifiEventId.STA_START =>
      -- esp_wifi_connect: hardware effect, elided
      ({ m with status := WiFiStatus.CONNECTING }, [])
  | WifiEventId.STA_DISCONNECTED =>
      let m1 := { m with status := WiFiStatus.DISCONNECTED }
      -- esp_wifi_connect retry: hardware effect, elided
      let m2 := { m1 with bits := { connected := false, fail := true } }
      (m2, if m2.eventCallback.isSome then [WiFiStatus.DISCONNECTED] else [])
  | WifiEventId.AP_STACONNECTED => (m, [])   -- log only
  | WifiEventId.AP_STADISCONNECTED => (m, []) -- log only
  | WifiEventId.STA_GOT_IP =>
      let m1 := { m with status := WiFiStatus.CONNECTED }
      let m2 := { m1 with bits := { m1.bits with connected := true } }
      (m2, if m2.eventCallback.isSome then [WiFiStatus.CONNECTED] else [])

/-- One step of the manager's reachable-state relation: any public
mutating call or any hardware event, with the hardware outcome flags
supplied per step. -/
inductive WifiOp
  | opInit (hw : WiFiHw)
  | opConfigureStation (hw : WiFiHw) (ssid password hostname : String)
  | opConfigureAP (hw : WiFiHw) (ssid password : String) (channel maxConnections : Nat)
  | opStart (hw : WiFiHw)
  | opStop (hw : WiFiHw)
  | opSetEventCallback (cb : Option Nat)
  | opEvent (e : WifiEventId)

/-- Apply one public call or hardware event to the manager state. -/
def WiFiManager.stepOp (m : WiFiManager) : WifiOp → WiFiManager
  | WifiOp.opInit hw => (WiFiManager.init hw m).1
  | WifiOp.opConfigureStation hw s p h => (WiFiManager.configureStation hw m s p h).1
  | WifiOp.opConfigureAP hw s p c x => (WiFiManager.configureAP hw m s p c x).1
  | WifiOp.opStart hw => (WiFiManager.start hw m).1
  | WifiOp.opStop hw => (WiFiManager.stop hw m).1
  | WifiOp.opSetEventCallback cb => WiFiManager.setEventCallback m cb
  | WifiOp.opEvent e => (WiFiManager.wifiEventHandler m e).1

/-- Run a sequence of calls/events from a starting state. -/
def WiFiManager.run (m : WiFiManager) : List WifiOp → WiFiManager
  | [] => m
  | op :: ops => WiFiManager.run (WiFiManager.stepOp m op) ops

end ESP32_WIFI

namespace ESP32_MQTT

/-- MQTT connection status (`MqttStatus` in MqttClient.hpp). -/
inductive MqttStatus
  | DISCONNECTED
  | CONNECTING
  | CONNECTED
  | ERROR
deriving DecidableEq, Repr

/-- The `last_will` sub-record of `esp_mqtt_client_config_t.session` as
filled in by `MqttClient::configure`. -/
structure LastWill where
  topic : String
  msg : String
  qos : Int
  retain : Bool
deriving DecidableEq, Repr

/-- The fields of `esp_mqtt_client_config_t` that
`MqttClient::configure` assigns after zeroing the struct; a `none`
means the corresponding pointer field was left null by the memset. -/
structure MqttConfigT where
  uri : String
  client_id : String
  username : Option String
  password : Option String
  keepalive : Int
  disable_clean_session : Bool
  last_will : Option LastWill
deriving DecidableEq, Repr

/-- The all-zero `esp_mqtt_client_config_t` (`_config({})` in the
constructor, and the state right after `memset`). -/
def MqttConfigT.zero : MqttConfigT :=
  { uri := ""
    client_id := ""
    username := none
    password := none
    keepalive := 0
    disable_clean_session := false
    last_will := none }

/-- Clean-session behavior the broker layer is asked for, as determined
by the SDK semantics of the `disable_clean_session` field. -/
def MqttConfigT.effectiveCleanSession (c : MqttConfigT) : Bool :=
  !c.disable_clean_session

/-- Fallibility flags and return values of the broker SDK layer:
whether `esp_mqtt_client_init` returns a handle, whether
`esp_mqtt_client_start`/`_stop` succeed, and the message identifiers
returned by publish/subscribe/unsubscribe on an existing handle. -/
structure MqttHw where
  clientInitOk : Bool
  startOk : Bool
  stopOk : Bool
  publishResult : Int
  subscribeResult : Int
  unsubscribeResult : Int
deriving DecidableEq, Repr

/-- Model of `MqttClient` state. `client` models the `_client` handle: `none`
when null, otherwise it carries the configuration snapshot the SDK
copied out of `_config` at `esp_mqtt_client_init` time (the
established session). `config` is the `_config` member itself. -/
structure MqttClient where
  client : Option MqttConfigT
  config : MqttConfigT
  status : MqttStatus
  userCallback : Option Nat
  brokerUri : String
  clientId : String
  willTopic : String
  willPayload : String
  willQos : Int
  willRetain : Bool
deriving DecidableEq, Repr

/-- The freshly constructed singleton (`MqttClient::MqttClient`). -/
def MqttClient.initial : MqttClient :=
  { client := none
    config := MqttConfigT.zero
    status := MqttStatus.DISCONNECTED
    userCallback := none
    brokerUri := ""
    clientId := ""
    willTopic := ""
    willPayload := ""
    willQos := 0
    willRetain := false }

/-- The `esp_mqtt_client_config_t` that `MqttClient::configure` builds
(lines 54–69 of mqtt.cpp): memset to zero, then the broker uri, client
id, optional credentials, keepalive, `disable_clean_session :=
cleanSession` (stored without negation), and the LWT fields when
`_willTopic` is nonempty. -/
def MqttClient.buildConfig (m : MqttClient) (uri clientId username password : String)
    (keepalive : Int) (cleanSession : Bool) : MqttConfigT :=
  { uri := uri
    client_id := clientId
    username := if username ≠ "" then some username else none
    password := if password ≠ "" then some password else none
    keepalive := keepalive
    disable_clean_session := cleanSession
    last_will :=
      if m.willTopic ≠ "" then
        some { topic := m.willTopic, msg := m.willPayload,
               qos := m.willQos, retain := m.willRetain }
      else none }

/-- Model of `MqttClient::configure`: stores uri and client id, rebuilds
`_config`, calls `esp_mqtt_client_init` (the SDK copies the config into
the new handle); a null handle sets status ERROR and returns false,
otherwise the event trampoline is registered and status becomes
DISCONNECTED. -/
def MqttClient.configure (hw : MqttHw) (m : MqttClient)
    (uri clientId username password : String) (keepalive : Int)
    (cleanSession : Bool) : MqttClient × Bool :=
  let m1 := { m with brokerUri := uri, clientId := clientId }
  let cfg := MqttClient.buildConfig m1 uri clientId username password keepalive cleanSession
  let m2 := { m1 with config := cfg }
  if hw.clientInitOk = false then
    ({ m2 with client := none, status := MqttStatus.ERROR }, false)
  else
    ({ m2 with client := some cfg, status := MqttStatus.DISCONNECTED }, true)

/-- Model of `MqttClient::setWill`: stores the four LWT fields. -/
def MqttClient.setWill (m : MqttClient) (topic payload : String) (qos : Int)
    (retain : Bool) : MqttClient :=
  { m with willTopic := topic, willPayload := payload,
           willQos := qos, willRetain := retain }

/-- Model of `MqttClient::connect`: false without a handle; on a successful
start status becomes CONNECTING, on failure ERROR. -/
def MqttClient.connect (hw : MqttHw) (m : MqttClient) : MqttClient × Bool :=
  match m.client with
  | none => (m, false)
  | some _ =>
    if hw.startOk then ({ m with status := MqttStatus.CONNECTING }, true)
    else ({ m with status := MqttStatus.ERROR }, false)

/-- Model of `MqttClient::disconnect`: false without a handle; on a successful
stop status becomes DISCONNECTED. -/
def MqttClient.disconnect (hw : MqttHw) (m : MqttClient) : MqttClient × Bool :=
  match m.client with
  | none => (m, false)
  | some _ =>
    if hw.stopOk then ({ m with status := MqttStatus.DISCONNECTED }, true)
    else (m, false)

/-- Model of `MqttClient::publish` (string overload): -1 without a handle, else
forwards to `esp_mqtt_client_publish`. -/
def MqttClient.publish (hw : MqttHw) (m : MqttClient)
    (_topic _payload : String) (_qos : Int) (_retain : Bool) :
    MqttClient × Int :=
  match m.client with
  | none => (m, -1)
  | some _ => (m, hw.publishResult)

/-- Model of `MqttClient::publish` (binary overload): -1 without a handle, else
forwards to `esp_mqtt_client_publish`. -/
def MqttClient.publishBinary (hw : MqttHw) (m : MqttClient)
    (_topic : String) (_data : List Nat) (_qos : Int) (_retain : Bool) :
    MqttClient × Int :=
  match m.client with
  | none => (m, -1)
  | some _ => (m, hw.publishResult)

/-- Model of `MqttClient::subscribe`: -1 without a handle, else forwards to
`esp_mqtt_client_subscribe_single`. -/
def MqttClient.subscribe (hw : MqttHw) (m : MqttClient) (_topic : String)
    (_qos : Int) : MqttClient × Int :=
  match m.client with
  | none => (m, -1)
  | some _ => (m, hw.subscribeResult)

/-- Model of `MqttClient::unsubscribe`: -1 without a handle, else forwards to
`esp_mqtt_client_unsubscribe`. -/
def MqttClient.unsubscribe (hw : MqttHw) (m : MqttClient) (_topic : String) :
    MqttClient × Int :=
  match m.client with
  | none => (m, -1)
  | some _ => (m, hw.unsubscribeResult)

/-- Model of `MqttClient::setEventCallback`: replaces the observer. -/
def MqttClient.setEventCallback (m : MqttClient) (cb : Option Nat) : MqttClient :=
  { m with userCallback := cb }

/-- The MQTT event identifiers that `MqttClient::eventHandlerCb`
switches on; `OTHER` is the `default` branch. -/
inductive MqttEventId
  | BEFORE_CONNECT
  | CONNECTED
  | DISCONNECTED
  | SUBSCRIBED
  | UNSUBSCRIBED
  | PUBLISHED
  | DATA
  | ERROR
  | OTHER
deriving DecidableEq, Repr

/-- One observer notification performed by the trampoline: the event
forwarded and the manager's status at the moment of the call. -/
structure ObserverCall where
  event : MqttEventId
  statusSeen : MqttStatus
deriving DecidableEq, Repr

/-- Model of `MqttClient::eventHandlerCb`: the switch updates the status
(BEFORE_CONNECT, CONNECTED, DISCONNECTED, ERROR; all other cases only
log), then the observer, if registered, is invoked once with the
event. The returned list records the observer invocations in order,
each with the status visible at call time. -/
def MqttClient.eventHandlerCb (m : MqttClient) (e : MqttEventId) :
    MqttClient × List ObserverCall :=
  let m1 :=
    match e with
    | MqttEventId.BEFORE_CONNECT => { m with status := MqttStatus.CONNECTING }
    | MqttEventId.CONNECTED => { m with status := MqttStatus.CONNECTED }
    | MqttEventId.DISCONNECTED => { m with status := MqttStatus.DISCONNECTED }
    | MqttEventId.ERROR => { m with status := MqttStatus.ERROR }
    | _ => m
  match m1.userCallback with
  | some _ => (m1, [{ event := e, statusSeen := m1.status }])
  | none => (m1, [])

end ESP32_MQTT

namespace ESP32_ADC

/-- The `esp_err_t` values distinguished by the ADCManager paths:
`ESP_ERR_INVALID_STATE` and any other SDK failure code. -/
inductive EspErr
  | INVALID_STATE
  | OTHER (code : Int)
deriving DecidableEq, Repr

/-- The analog hardware layer as seen by the one-shot read path: the
outcome of `adc_oneshot_read` per channel and of
`adc_cali_raw_to_voltage` per raw value. -/
structure AdcHw where
  oneshotRead : Nat → Except EspErr Int
  rawToVoltage : Int → Except EspErr Int

/-- The part of `ADCManager` state the one-shot read path uses: whether
`one_shot_unit_handle` is non-null and whether `cali_handle` is
non-null (calibration scheme present). -/
structure ADCManager where
  one_shot_unit_handle : Bool
  cali_handle : Bool
deriving DecidableEq, Repr

/-- Model of `ADCManager::readOneShot`: `ESP_ERR_INVALID_STATE` without a
one-shot unit handle, else forwards to `adc_oneshot_read`. -/
def ADCManager.readOneShot (hw : AdcHw) (m : ADCManager) (channel : Nat) :
    Except EspErr Int :=
  if m.one_shot_unit_handle = false then Except.error EspErr.INVALID_STATE
  else hw.oneshotRead channel

/-- Model of `ADCManager::readOneShotVoltage`: reads a raw sample via
`readOneShot` (propagating its error), then converts it through the
calibration scheme when one exists, else writes the raw value through
unconverted. -/
def ADCManager.readOneShotVoltage (hw : AdcHw) (m : ADCManager) (channel : Nat) :
    Except EspErr Int :=
  match ADCManager.readOneShot hw m channel with
  | Except.error e => Except.error e
  | Except.ok raw =>
    if m.cali_handle then hw.rawToVoltage raw
    else Except.ok raw

end ESP32_ADC

/-! ## Fixtures: concrete hardware and manager states used by witnesses -/

/-- A GPIO hardware state whose configuration requests all fail and
whose pins all read low. -/
def gpioHwReject : ESP32_GPIO.GpioHw :=
  { levels := fun _ => false, configOk := fun _ => false, isrServiceOk := true }

/-- A GPIO hardware state whose configuration requests all succeed. -/
def gpioHwAccept : ESP32_GPIO.GpioHw :=
  { levels := fun _ => false, configOk := fun _ => true, isrServiceOk := true }

/-- A WiFi hardware state whose SDK calls all succeed. -/
def wifiHwOk : ESP32_WIFI.WiFiHw :=
  { initOk := true, stopOk := true }

/-- An initialized WiFi manager currently in BOTH mode. -/
def wifiBothInit : ESP32_WIFI.WiFiManager :=
  { ESP32_WIFI.WiFiManager.initial with
      initialized := true, mode := ESP32_WIFI.WiFiMode.BOTH }

/-- An MQTT hardware state whose SDK calls all succeed. -/
def mqttHwOk : ESP32_MQTT.MqttHw :=
  { clientInitOk := true, startOk := true, stopOk := true,
    publishResult := 1, subscribeResult := 2, unsubscribeResult := 3 }

/-- An ADC hardware state delivering a fixed raw sample and a doubling
calibration map. -/
def adcHwFix : ESP32_ADC.AdcHw :=
  { oneshotRead := fun _ => Except.ok 512,
    rawToVoltage := fun r => Except.ok (2 * r) }

/-! ## Theorems for the claims -/

namespace ESP32_GPIO

/-- Helper: `configurePin` never touches `_configs` when the interrupt
trigger is NONE or no callback is supplied, and never on the failure
path. -/
theorem configurePin_configs_frame (hw : GpioHw) (m : GpioManager) (pin : Nat)
    (mode : PinMode) (pu pd : Bool) (intr : InterruptTrigger)
    (cb : Option GpioCallback) (od : Bool) (drive : DriveStrength)
    (h : intr = InterruptTrigger.NONE ∨ cb = none ∨
      hw.configOk (buildGpioConfig pin mode pu pd intr od) = false) :
    (GpioManager.configurePin hw m pin mode pu pd intr cb od drive).1.configs
      = m.configs := by
  unfold GpioManager.configurePin GpioManager.init
  rcases h with h | h | h <;>
    split <;> simp_all <;> split <;> simp_all <;> split <;> simp_all

end ESP32_GPIO

namespace ESP32_GPIO

/-- C3: for every pin p, `configurePin(p, mode, ..., trigger=NONE,
callback=null)` registers no interrupt callback for p (the callback
table is unchanged, hence still empty for p when it was empty before)
and a later interrupt dispatch for p invokes no callback; and when the
hardware configuration request fails, `configurePin` returns false and
leaves the callback table entry for p unchanged. -/
theorem gpio_configurePin_none_and_failure (hw : GpioHw) (m : GpioManager)
    (pin : Nat) (mode mode2 : PinMode) (pu pd od pu2 pd2 od2 : Bool)
    (drive drive2 : DriveStrength) (intr2 : InterruptTrigger)
    (cb2 : Option GpioCallback)
    (hnone : m.configs pin = none)
    (hfail : hw.configOk (buildGpioConfig pin mode2 pu2 pd2 intr2 od2) = false) :
    ((GpioManager.configurePin hw m pin mode pu pd InterruptTrigger.NONE none od drive).1.configs
        = m.configs
      ∧ (GpioManager.configurePin hw m pin mode pu pd InterruptTrigger.NONE none od drive).1.configs pin
        = none
      ∧ GpioManager.isrHandler hw
          (GpioManager.configurePin hw m pin mode pu pd InterruptTrigger.NONE none od drive).1 pin
        = none)
    ∧ ((GpioManager.configurePin hw m pin mode2 pu2 pd2 intr2 cb2 od2 drive2).2 = false
      ∧ (GpioManager.configurePin hw m pin mode2 pu2 pd2 intr2 cb2 od2 drive2).1.configs
        = m.configs) := by
  have hframe1 := configurePin_configs_frame hw m pin mode pu pd
    InterruptTrigger.NONE none od drive (Or.inl rfl)
  have hframe2 := configurePin_configs_frame hw m pin mode2 pu2 pd2
    intr2 cb2 od2 drive2 (Or.inr (Or.inr hfail))
  refine ⟨⟨hframe1, ?_, ?_⟩, ?_, hframe2⟩
  · rw [hframe1, hnone]
  · unfold GpioManager.isrHandler
    rw [hframe1, hnone]
  · unfold GpioManager.configurePin
    simp [hfail]

/-- Witness for C3 at a concrete input: pin 4 of a fresh manager, with
a hardware layer that rejects every configuration request. -/
theorem gpio_configurePin_none_and_failure_witness :
    ((GpioManager.configurePin gpioHwReject GpioManager.initial 4 PinMode.INPUT
        false false InterruptTrigger.NONE none false DriveStrength.DEFAULT).1.configs
        = GpioManager.initial.configs
      ∧ (GpioManager.configurePin gpioHwReject GpioManager.initial 4 PinMode.INPUT
        false false InterruptTrigger.NONE none false DriveStrength.DEFAULT).1.configs 4
        = none
      ∧ GpioManager.isrHandler gpioHwReject
          (GpioManager.configurePin gpioHwReject GpioManager.initial 4 PinMode.INPUT
            false false InterruptTrigger.NONE none false DriveStrength.DEFAULT).1 4
        = none)
    ∧ ((GpioManager.configurePin gpioHwReject GpioManager.initial 4 PinMode.OUTPUT
        true false InterruptTrigger.RISING (some 7) false DriveStrength.D2).2 = false
      ∧ (GpioManager.configurePin gpioHwReject GpioManager.initial 4 PinMode.OUTPUT
        true false InterruptTrigger.RISING (some 7) false DriveStrength.D2).1.configs
        = GpioManager.initial.configs) :=
  gpio_configurePin_none_and_failure gpioHwReject GpioManager.initial 4
    PinMode.INPUT PinMode.OUTPUT false false false true false false
    DriveStrength.DEFAULT DriveStrength.D2 InterruptTrigger.RISING (some 7)
    rfl rfl

/-- C8: for every pin p and hardware state, `toggle(p)` reads the
current level and writes its C-style complement, so `getLevel(p)`
immediately after `toggle(p)` is the boolean complement (1 for 0, 0
for 1) of the level observed immediately before the call. -/
theorem gpio_toggle_complements_level (hw : GpioHw) (pin : Nat) :
    GpioManager.getLevel (GpioManager.toggle hw pin) pin
      = (if GpioManager.getLevel hw pin = 0 then 1 else 0) := by
  unfold GpioManager.toggle GpioManager.getLevel GpioManager.setLevel
  unfold gpio_get_level gpio_set_level cNot
  by_cases h : hw.levels pin <;> simp [h]

end ESP32_GPIO

namespace ESP32_ADC

/-- C7: when no calibration scheme exists (`cali_handle` null),
`readOneShotVoltage` coincides with `readOneShot` on every hardware
state and channel: the same raw sample is written out as the voltage
(raw passthrough with success), and any read error is propagated
identically. -/
theorem adc_readOneShotVoltage_passthrough (hw : AdcHw) (m : ADCManager)
    (channel : Nat) (hcal : m.cali_handle = false) :
    ADCManager.readOneShotVoltage hw m channel
      = ADCManager.readOneShot hw m channel := by
  unfold ADCManager.readOneShotVoltage
  cases h : ADCManager.readOneShot hw m channel <;> simp [hcal]

/-- Witness for C7 at a concrete input: a configured unit without a
calibration scheme, on a hardware state delivering raw sample 512. -/
theorem adc_readOneShotVoltage_passthrough_witness :
    ADCManager.readOneShotVoltage adcHwFix
        { one_shot_unit_handle := true, cali_handle := false } 3
      = ADCManager.readOneShot adcHwFix
        { one_shot_unit_handle := true, cali_handle := false } 3 :=
  adc_readOneShotVoltage_passthrough adcHwFix
    { one_shot_unit_handle := true, cali_handle := false } 3 rfl

end ESP32_ADC

namespace ESP32_MQTT

/-- C4: when no client handle exists (no successful `configure` has
happened), `publish` (both overloads), `subscribe` and `unsubscribe`
each return -1 and leave the manager state entirely unchanged. -/
theorem mqtt_unconfigured_ops_fail (hw : MqttHw) (m : MqttClient)
    (topic payload : String) (data : List Nat) (qos : Int) (retain : Bool)
    (h : m.client = none) :
    MqttClient.publish hw m topic payload qos retain = (m, -1)
    ∧ MqttClient.publishBinary hw m topic data qos retain = (m, -1)
    ∧ MqttClient.subscribe hw m topic qos = (m, -1)
    ∧ MqttClient.unsubscribe hw m topic = (m, -1) := by
  unfold MqttClient.publish MqttClient.publishBinary
  unfold MqttClient.subscribe MqttClient.unsubscribe
  rw [h]
  exact ⟨rfl, rfl, rfl, rfl⟩

/-- Witness for C4 at a concrete input: the freshly constructed client
(no handle) with a fully functional hardware layer. -/
theorem mqtt_unconfigured_ops_fail_witness :
    MqttClient.publish mqttHwOk MqttClient.initial "t" "p" 0 false
      = (MqttClient.initial, -1)
    ∧ MqttClient.publishBinary mqttHwOk MqttClient.initial "t" [1, 2] 0 false
      = (MqttClient.initial, -1)
    ∧ MqttClient.subscribe mqttHwOk MqttClient.initial "t" 0
      = (MqttClient.initial, -1)
    ∧ MqttClient.unsubscribe mqttHwOk MqttClient.initial "t"
      = (MqttClient.initial, -1) :=
  mqtt_unconfigured_ops_fail mqttHwOk MqttClient.initial "t" "p" [1, 2] 0 false rfl

/-- The status-transition mapping asserted by the spec for the event
trampoline: BeforeConnect to Connecting, Connected to Connected,
Disconnected to Disconnected, Error to Error, every other event kind
status-neutral. Stated from the spec's words, to be compared with the
source-derived `MqttClient.eventHandlerCb`. -/
def specStatusAfter (prev : MqttStatus) : MqttEventId → MqttStatus
  | MqttEventId.BEFORE_CONNECT => MqttStatus.CONNECTING
  | MqttEventId.CONNECTED => MqttStatus.CONNECTED
  | MqttEventId.DISCONNECTED => MqttStatus.DISCONNECTED
  | MqttEventId.ERROR => MqttStatus.ERROR
  | _ => prev

/-- C5: for every starting state and broker event, the trampoline's
status transition realizes the spec mapping (BeforeConnect to
Connecting, Connected to Connected, Disconnected to Disconnected,
Error to Error, the rest status-neutral), and the observer, when
registered, is invoked exactly once, after the status update, seeing
the post-transition status (no invocation when unregistered). -/
theorem mqtt_event_trampoline_correct (m : MqttClient) (e : MqttEventId) :
    (MqttClient.eventHandlerCb m e).1.status = specStatusAfter m.status e
    ∧ (MqttClient.eventHandlerCb m e).2
      = (if m.userCallback.isSome then
          [{ event := e, statusSeen := (MqttClient.eventHandlerCb m e).1.status }]
        else []) := by
  cases e <;> cases h : m.userCallback <;>
    simp [MqttClient.eventHandlerCb, specStatusAfter, h]

end ESP32_MQTT

namespace ESP32_MQTT

/-- C9: `configure` stores its `cleanSession` argument without negation
into the session request's `disable_clean_session` field, so the
clean-session behavior requested from the broker layer is the logical
negation of the `cleanSession` argument; on a successful `configure`
this request is exactly what the created client handle snapshots. -/
theorem mqtt_clean_session_stored_unnegated (hw : MqttHw) (m : MqttClient)
    (uri clientId username password : String) (keepalive : Int)
    (cleanSession : Bool) (hok : hw.clientInitOk = true) :
    (MqttClient.buildConfig m uri clientId username password keepalive
        cleanSession).disable_clean_session = cleanSession
    ∧ MqttConfigT.effectiveCleanSession
        (MqttClient.buildConfig m uri clientId username password keepalive
          cleanSession) = !cleanSession
    ∧ (MqttClient.configure hw m uri clientId username password keepalive
        cleanSession).1.client
      = some (MqttClient.buildConfig m uri clientId username password keepalive
          cleanSession) := by
  refine ⟨rfl, rfl, ?_⟩
  unfold MqttClient.configure
  simp [hok, MqttClient.buildConfig]

/-- Witness for C9 at a concrete input: configuring with
cleanSession = true on a hardware layer whose client creation
succeeds. -/
theorem mqtt_clean_session_stored_unnegated_witness :
    (MqttClient.buildConfig MqttClient.initial "mqtt:" "dev" "" "" 60
        true).disable_clean_session = true
    ∧ MqttConfigT.effectiveCleanSession
        (MqttClient.buildConfig MqttClient.initial "mqtt:" "dev" "" "" 60 true)
      = !true
    ∧ (MqttClient.configure mqttHwOk MqttClient.initial "mqtt:" "dev" "" "" 60
        true).1.client
      = some (MqttClient.buildConfig MqttClient.initial "mqtt:" "dev" "" "" 60
          true) :=
  mqtt_clean_session_stored_unnegated mqttHwOk MqttClient.initial
    "mqtt:" "dev" "" "" 60 true rfl

/-- C2: `setWill` after a successful `configure` leaves the
already-established session (the handle's snapshot, last-will fields
included) unchanged, and a subsequent `configure` builds its session
request from the will fields most recently stored by `setWill`. -/
theorem mqtt_setWill_snapshot (hw hw2 : MqttHw) (m : MqttClient)
    (uri clientId username password : String) (keepalive : Int)
    (cleanSession : Bool)
    (uri2 clientId2 username2 password2 : String) (keepalive2 : Int)
    (cleanSession2 : Bool)
    (topic payload : String) (qos : Int) (retain : Bool)
    (hok2 : hw2.clientInitOk = true) (htopic : topic ≠ "") :
    (MqttClient.setWill
        (MqttClient.configure hw m uri clientId username password keepalive
          cleanSession).1 topic payload qos retain).client
      = (MqttClient.configure hw m uri clientId username password keepalive
          cleanSession).1.client
    ∧ ∃ c : MqttConfigT,
        (MqttClient.configure hw2
            (MqttClient.setWill
              (MqttClient.configure hw m uri clientId username password
                keepalive cleanSession).1 topic payload qos retain)
            uri2 clientId2 username2 password2 keepalive2 cleanSession2).1.client
          = some c
        ∧ c.last_will
          = some { topic := topic, msg := payload, qos := qos, retain := retain } := by
  constructor
  · unfold MqttClient.setWill
    rfl
  · refine ⟨MqttClient.buildConfig
      (MqttClient.setWill
        (MqttClient.configure hw m uri clientId username password keepalive
          cleanSession).1 topic payload qos retain)
      uri2 clientId2 username2 password2 keepalive2 cleanSession2, ?_, ?_⟩
    · unfold MqttClient.configure
      simp [hok2, MqttClient.buildConfig, MqttClient.setWill]
    · unfold MqttClient.buildConfig MqttClient.setWill
      simp [htopic]

/-- Witness for C2 at a concrete input: configure, then setWill with a
nonempty topic, then configure again. -/
theorem mqtt_setWill_snapshot_witness :
    (MqttClient.setWill
        (MqttClient.configure mqttHwOk MqttClient.initial "mqtt:" "dev" "" ""
          60 true).1 "lwt" "bye" 1 true).client
      = (MqttClient.configure mqttHwOk MqttClient.initial "mqtt:" "dev" "" ""
          60 true).1.client
    ∧ ∃ c : MqttConfigT,
        (MqttClient.configure mqttHwOk
            (MqttClient.setWill
              (MqttClient.configure mqttHwOk MqttClient.initial "mqtt:" "dev"
                "" "" 60 true).1 "lwt" "bye" 1 true)
            "mqtt2:" "dev2" "" "" 30 false).1.client
          = some c
        ∧ c.last_will
          = some { topic := "lwt", msg := "bye", qos := 1, retain := true } :=
  mqtt_setWill_snapshot mqttHwOk mqttHwOk MqttClient.initial
    "mqtt:" "dev" "" "" 60 true "mqtt2:" "dev2" "" "" 30 false
    "lwt" "bye" 1 true rfl (by decide)

end ESP32_MQTT

namespace ESP32_WIFI

/-- C6: `waitForConnection` called when the mode is AccessPoint-only
returns failure immediately for every timeout value and every state of
the event-group bits, and never invokes the blocking wait on the
event flags (second component false = `xEventGroupWaitBits` not
reached). -/
theorem wifi_waitForConnection_ap_only_immediate (m : WiFiManager)
    (timeoutMs : Nat) (bits : EventBits)
    (h : m.mode = WiFiMode.ACCESS_POINT) :
    WiFiManager.waitForConnection m timeoutMs bits = (false, false) := by
  unfold WiFiManager.waitForConnection
  simp [h]

/-- Witness for C6 at a concrete input: an AccessPoint-only
configuration with both event bits set and a large timeout. -/
theorem wifi_waitForConnection_ap_only_immediate_witness :
    WiFiManager.waitForConnection
        { WiFiManager.initial with mode := WiFiMode.ACCESS_POINT } 30000
        { connected := true, fail := true }
      = (false, false) :=
  wifi_waitForConnection_ap_only_immediate
    { WiFiManager.initial with mode := WiFiMode.ACCESS_POINT } 30000
    { connected := true, fail := true } rfl

/-- C1 counterexample: on a freshly constructed manager (whose `_mode`
starts as STATION), calling `configureAP` and then `configureStation`
— the "opposite order" of the claim — ends with mode STATION, not
BOTH: the claim is false at this concrete input. -/
theorem wifi_mode_claim_counterexample :
    (WiFiManager.configureStation wifiHwOk
        (WiFiManager.configureAP wifiHwOk WiFiManager.initial "ap" "" 1 4).1
        "net" "pw" "").1.mode = WiFiMode.STATION
    ∧ (WiFiManager.configureStation wifiHwOk
        (WiFiManager.configureAP wifiHwOk WiFiManager.initial "ap" "" 1 4).1
        "net" "pw" "").1.mode ≠ WiFiMode.BOTH := by
  constructor <;> decide

/-- C1 amended: each configure method overwrites only its own role's
credentials, leaving the other role's credentials unchanged, but
recomputes the mode absolutely rather than accumulating bits:
`configureStation` yields BOTH exactly when the current mode is
ACCESS_POINT and STATION otherwise, `configureAP` yields BOTH exactly
when the current mode is STATION and ACCESS_POINT otherwise. Hence
`configureStation` then `configureAP` yields BOTH, while reconfiguring
either role while mode is BOTH demotes the mode to that role alone
(and the opposite order from a fresh manager ends at STATION). -/
theorem wifi_mode_transitions_amended (hw : WiFiHw) (m : WiFiManager)
    (s p h as ap : String) (ch mx : Nat)
    (hinit : m.initialized = true) :
    WiFiManager.configureStation hw m s p h
      = ({ m with
            stationSSID := s
            stationPassword := p
            mode := if m.mode = WiFiMode.ACCESS_POINT then WiFiMode.BOTH else WiFiMode.STATION }, true)
    ∧ WiFiManager.configureAP hw m as ap ch mx
      = ({ m with
            apSSID := as
            apPassword := ap
            mode := if m.mode = WiFiMode.STATION then WiFiMode.BOTH else WiFiMode.ACCESS_POINT }, true)
    ∧ (WiFiManager.configureAP wifiHwOk
        (WiFiManager.configureStation wifiHwOk WiFiManager.initial s p h).1
        as ap ch mx).1.mode = WiFiMode.BOTH
    ∧ (m.mode = WiFiMode.BOTH →
        (WiFiManager.configureStation hw m s p h).1.mode = WiFiMode.STATION
        ∧ (WiFiManager.configureAP hw m as ap ch mx).1.mode
          = WiFiMode.ACCESS_POINT) := by
  refine ⟨?_, ?_, ?_, ?_⟩
  · unfold WiFiManager.configureStation
    by_cases hm : m.mode = WiFiMode.ACCESS_POINT <;> simp [hinit, hm]
  · unfold WiFiManager.configureAP
    by_cases hm : m.mode = WiFiMode.STATION <;> simp [hinit, hm]
  · unfold WiFiManager.configureStation WiFiManager.configureAP
    unfold WiFiManager.init WiFiManager.initial wifiHwOk
    simp
  · intro hb
    unfold WiFiManager.configureStation WiFiManager.configureAP
    simp [hinit, hb]

/-- Witness for C1's amended theorem at a concrete input: an
initialized manager in BOTH mode. -/
theorem wifi_mode_transitions_amended_witness :
    WiFiManager.configureStation wifiHwOk wifiBothInit "n" "p" ""
      = ({ wifiBothInit with
            stationSSID := "n"
            stationPassword := "p"
            mode := if wifiBothInit.mode = WiFiMode.ACCESS_POINT then WiFiMode.BOTH else WiFiMode.STATION }, true)
    ∧ WiFiManager.configureAP wifiHwOk wifiBothInit "a" "w" 1 4
      = ({ wifiBothInit with
            apSSID := "a"
            apPassword := "w"
            mode := if wifiBothInit.mode = WiFiMode.STATION then WiFiMode.BOTH else WiFiMode.ACCESS_POINT }, true)
    ∧ (WiFiManager.configureAP wifiHwOk
        (WiFiManager.configureStation wifiHwOk WiFiManager.initial "n" "p" "").1
        "a" "w" 1 4).1.mode = WiFiMode.BOTH
    ∧ (wifiBothInit.mode = WiFiMode.BOTH →
        (WiFiManager.configureStation wifiHwOk wifiBothInit "n" "p" "").1.mode
          = WiFiMode.STATION
        ∧ (WiFiManager.configureAP wifiHwOk wifiBothInit "a" "w" 1 4).1.mode
          = WiFiMode.ACCESS_POINT) :=
  wifi_mode_transitions_amended wifiHwOk wifiBothInit "n" "p" "" "a" "w" 1 4 rfl

end ESP32_WIFI

namespace ESP32_WIFI

/-- Helper: no single public call or hardware event introduces the
FAILED status. -/
theorem stepOp_no_failed (m : WiFiManager) (op : WifiOp)
    (h : m.status ≠ WiFiStatus.FAILED) :
    (WiFiManager.stepOp m op).status ≠ WiFiStatus.FAILED := by
  cases op with
  | opInit hw =>
    simp only [WiFiManager.stepOp, WiFiManager.init]
    repeat' split
    all_goals simp_all
  | opConfigureStation hw s p host =>
    simp only [WiFiManager.stepOp, WiFiManager.configureStation, WiFiManager.init]
    repeat' split
    all_goals simp_all
  | opConfigureAP hw s p c x =>
    simp only [WiFiManager.stepOp, WiFiManager.configureAP, WiFiManager.init]
    repeat' split
    all_goals simp_all
  | opStart hw =>
    simp only [WiFiManager.stepOp, WiFiManager.start, WiFiManager.init]
    repeat' split
    all_goals simp_all
  | opStop hw =>
    simp only [WiFiManager.stepOp, WiFiManager.stop]
    repeat' split
    all_goals simp_all
  | opSetEventCallback cb =>
    simp only [WiFiManager.stepOp, WiFiManager.setEventCallback]
    simp_all
  | opEvent e =>
    cases e <;>
      simp only [WiFiManager.stepOp, WiFiManager.wifiEventHandler] <;>
      simp_all

/-- Helper: the FAILED-freedom of the status is preserved along any
run of public calls and hardware events. -/
theorem run_no_failed (ops : List WifiOp) (m : WiFiManager)
    (h : m.status ≠ WiFiStatus.FAILED) :
    (WiFiManager.run m ops).status ≠ WiFiStatus.FAILED := by
  induction ops generalizing m with
  | nil => exact h
  | cons op ops ih =>
    exact ih (WiFiManager.stepOp m op) (stepOp_no_failed m op h)

/-- C10: for every sequence of public calls and hardware events
applied to the freshly constructed manager, the status field never
takes the value FAILED — it remains one of DISCONNECTED, CONNECTING,
CONNECTED; in particular a station-disconnect event always sets the
status to DISCONNECTED, not FAILED. -/
theorem wifi_status_never_failed (ops : List WifiOp) (m : WiFiManager) :
    ((WiFiManager.run WiFiManager.initial ops).status = WiFiStatus.DISCONNECTED
      ∨ (WiFiManager.run WiFiManager.initial ops).status = WiFiStatus.CONNECTING
      ∨ (WiFiManager.run WiFiManager.initial ops).status = WiFiStatus.CONNECTED)
    ∧ (WiFiManager.wifiEventHandler m WifiEventId.STA_DISCONNECTED).1.status
      = WiFiStatus.DISCONNECTED := by
  constructor
  · have h := run_no_failed ops WiFiManager.initial (by
      unfold WiFiManager.initial
      simp)
    cases hs : (WiFiManager.run WiFiManager.initial ops).status <;> simp_all
  · unfold WiFiManager.wifiEventHandler
    simp

/-- Witness for C10 at a concrete input: a run through start, a
disconnect event and a got-IP event. -/
theorem wifi_status_never_failed_witness :
    ((WiFiManager.run WiFiManager.initial
        [WifiOp.opConfigureStation wifiHwOk "n" "p" "",
          WifiOp.opStart wifiHwOk,
          WifiOp.opEvent WifiEventId.STA_DISCONNECTED,
          WifiOp.opEvent WifiEventId.STA_GOT_IP]).status = WiFiStatus.DISCONNECTED
      ∨ (WiFiManager.run WiFiManager.initial
        [WifiOp.opConfigureStation wifiHwOk "n" "p" "",
          WifiOp.opStart wifiHwOk,
          WifiOp.opEvent WifiEventId.STA_DISCONNECTED,
          WifiOp.opEvent WifiEventId.STA_GOT_IP]).status = WiFiStatus.CONNECTING
      ∨ (WiFiManager.run WiFiManager.initial
        [WifiOp.opConfigureStation wifiHwOk "n" "p" "",
          WifiOp.opStart wifiHwOk,
          WifiOp.opEvent WifiEventId.STA_DISCONNECTED,
          WifiOp.opEvent WifiEventId.STA_GOT_IP]).status = WiFiStatus.CONNECTED)
    ∧ (WiFiManager.wifiEventHandler WiFiManager.initial
        WifiEventId.STA_DISCONNECTED).1.status = WiFiStatus.DISCONNECTED :=
  wifi_status_never_failed
    [WifiOp.opConfigureStation wifiHwOk "n" "p" "",
      WifiOp.opStart wifiHwOk,
      WifiOp.opEvent WifiEventId.STA_DISCONNECTED,
      WifiOp.opEvent WifiEventId.STA_GOT_IP]
    WiFiManager.initial

end ESP32_WIFI
